import Mathlib

/-!
Verification development for the `lve` rendering engine core
(`src/VulkanEngine/lve_renderer.cpp` and `src/RayTracing/lve_descriptors.cpp`).

The C++ code is shallowly embedded: the renderer's mutable members become a
`RendererState` record threaded explicitly, outcomes of external Vulkan/GLFW
calls become explicit environment records, `assert` failures and thrown
`std::runtime_error`s become distinguished outcome constructors, and the
window's stream of observed framebuffer extents becomes a list of
observations consumed by the spin-wait loop.
-/

namespace Lve

/-- A framebuffer extent as returned by `lveWindow.getExtent()`:
a pair of `uint32_t` dimensions. -/
structure Extent where
  width : Nat
  height : Nat
deriving DecidableEq, Repr

/-- The swapchain data relevant to the renderer: the image and depth formats
(opaque `VkFormat` codes, modelled as `Nat`) fixed at construction, and the
extent that was passed to the constructor. -/
structure SwapChain where
  imageFormat : Nat
  depthFormat : Nat
  swapChainExtent : Extent
deriving DecidableEq, Repr

/-- Modelled from the spec: `LveSwapChain::compareSwapFormats` is declared in
the swapchain header, which is not among the provided sources; per the spec,
swapchain recreation "validates that the image/depth formats match the prior
instance", so it holds exactly when both the image format and the depth
format of the two swapchains agree. In the source it is invoked as
`oldSwapChain->compareSwapFormats(*lveSwapChain.get())`. -/
def SwapChain.compareSwapFormats (old other : SwapChain) : Bool :=
  old.imageFormat == other.imageFormat && old.depthFormat == other.depthFormat

/-- The spin-wait loop of `LveRenderer::recreateSwapChain`
(src/VulkanEngine/lve_renderer.cpp lines 36-40):

  auto extent = lveWindow.getExtent();
  while (extent.width = 0 || extent.height == 0) \x7b
    extent = lveWindow.getExtent();
    glfwWaitEvents();
  \x7d

The condition parses as `extent.width = (0 || extent.height == 0)`: an
ASSIGNMENT of the boolean value of `extent.height == 0` to `extent.width`,
whose value is then the loop guard.  Hence each evaluation of the guard
sets `extent.width` to `1` and continues when `extent.height == 0`, and
sets `extent.width` to `0` and exits when `extent.height != 0`.  During
iterations the clobbered width is immediately overwritten by the re-read
`getExtent()`, so only the final clobber is observable.

`e` is the most recently observed extent, `obs` the remaining extents the
window will report on subsequent `getExtent()` calls; `none` means the loop
is still spinning when the observation stream runs out. -/
def waitLoop : Extent → List Extent → Option Extent
  | e, obs =>
    if e.height = 0 then
      match obs with
      | [] => none
      | o :: rest => waitLoop o rest
    else
      some { width := 0, height := e.height }

/-- The intended loop, as the spec words it ("block/poll until a non-zero
extent is observed", passing the observed extent on unmodified): spin while
either dimension is zero, return the observed extent untouched.  Used as the
comparison point for the claim about the spin-wait. -/
def waitLoopSpec : Extent → List Extent → Option Extent
  | e, obs =>
    if e.width = 0 ∨ e.height = 0 then
      match obs with
      | [] => none
      | o :: rest => waitLoopSpec o rest
    else
      some e

/-- Environment for one `recreateSwapChain` call: the first extent read from
the window, the further extents observed inside the wait loop, and the
formats the driver gives the newly constructed swapchain. -/
structure RecreateEnv where
  firstExtent : Extent
  moreExtents : List Extent
  newImageFormat : Nat
  newDepthFormat : Nat
deriving DecidableEq, Repr

/-- Outcome of `recreateSwapChain`: still spinning in the zero-extent wait,
a thrown `std::runtime_error`, or a successfully constructed swapchain. -/
inductive RecreateResult where
  | waiting : RecreateResult
  | fatal : RecreateResult
  | ok : SwapChain → RecreateResult
deriving DecidableEq, Repr

/-- `LveRenderer::recreateSwapChain` (src/VulkanEngine/lve_renderer.cpp
lines 35-54): runs the wait loop, then `vkDeviceWaitIdle`, then constructs
the new swapchain from the resulting extent; when an old swapchain exists it
is passed to the constructor as a transfer source and afterwards
`oldSwapChain->compareSwapFormats(*lveSwapChain)` must hold, otherwise
`std::runtime_error("Swap chain image(or dept) format has changed.")` is
thrown. -/
def recreateSwapChain (old : Option SwapChain) (env : RecreateEnv) : RecreateResult :=
  match waitLoop env.firstExtent env.moreExtents with
  | none => .waiting
  | some extent =>
    let newSC : SwapChain :=
      { imageFormat := env.newImageFormat
        depthFormat := env.newDepthFormat
        swapChainExtent := extent }
    match old with
    | none => .ok newSC
    | some oldSC =>
      if oldSC.compareSwapFormats newSC then .ok newSC else .fatal

/-- The mutable renderer members of `LveRenderer` that the frame protocol
touches: the frame-in-progress flag, the image index written by
`acquireNextImage`, the frame-in-flight index, and the owned swapchain. -/
structure RendererState where
  isFrameStarted : Bool
  currentImageIndex : Nat
  currentFrameIndex : Nat
  swapChain : SwapChain
deriving DecidableEq, Repr

/-- The `VkResult` values the renderer branches on; every other error code is
collapsed into `otherError`. -/
inductive VkResult where
  | success : VkResult
  | suboptimalKHR : VkResult
  | errorOutOfDateKHR : VkResult
  | otherError : VkResult
deriving DecidableEq, Repr

/-- Environment for one `beginFrame` call: the status and image index
produced by `lveSwapChain->acquireNextImage`, the environment of a possible
swapchain recreation, and whether `vkBeginCommandBuffer` succeeds. -/
structure BeginEnv where
  acquireResult : VkResult
  acquiredImageIndex : Nat
  recreateEnv : RecreateEnv
  beginCommandBufferOk : Bool
deriving DecidableEq, Repr

/-- Outcome of `beginFrame`: a tripped `assert`, the recreation spin-wait,
a thrown `std::runtime_error`, or normal return with the updated state and
the returned command buffer (`none` is the C++ `nullptr`). -/
inductive BeginOutcome where
  | assertFail : BeginOutcome
  | waiting : BeginOutcome
  | fatal : BeginOutcome
  | ok : RendererState → Option Nat → BeginOutcome
deriving DecidableEq, Repr

/-- `getCurrentCommandBuffer()`: `commandBuffers[currentFrameIndex]`; the
buffers are opaque handles, modelled by their index in the vector. -/
def getCurrentCommandBuffer (s : RendererState) : Nat :=
  s.currentFrameIndex

/-- `LveRenderer::beginFrame` (src/VulkanEngine/lve_renderer.cpp lines
99-125).  Asserts `!isFrameStarted`; acquires the next image; on
`VK_ERROR_OUT_OF_DATE_KHR` recreates the swapchain and returns `nullptr`;
on any result other than `VK_SUCCESS`/`VK_SUBOPTIMAL_KHR` throws; otherwise
stores the acquired image index, sets `isFrameStarted`, begins recording on
the current frame's command buffer and returns it. -/
def beginFrame (s : RendererState) (env : BeginEnv) : BeginOutcome :=
  if s.isFrameStarted then .assertFail
  else if env.acquireResult = .errorOutOfDateKHR then
    match recreateSwapChain (some s.swapChain) env.recreateEnv with
    | .waiting => .waiting
    | .fatal => .fatal
    | .ok sc => .ok { s with swapChain := sc } none
  else if env.acquireResult ≠ .success ∧ env.acquireResult ≠ .suboptimalKHR then
    .fatal
  else
    let s1 := { s with
      currentImageIndex := env.acquiredImageIndex
      isFrameStarted := true }
    if env.beginCommandBufferOk then .ok s1 (some (getCurrentCommandBuffer s1))
    else .fatal

/-- Environment for one `endFrame` call: whether `vkEndCommandBuffer`
succeeds, the status from `lveSwapChain->submitCommandBuffers`, the window's
resized flag, and the environment of a possible swapchain recreation. -/
structure EndEnv where
  endCommandBufferOk : Bool
  submitResult : VkResult
  windowResized : Bool
  recreateEnv : RecreateEnv
deriving DecidableEq, Repr

/-- Outcome of `endFrame`: a tripped `assert`, the recreation spin-wait,
a thrown `std::runtime_error`, or normal completion with the updated
state. -/
inductive EndOutcome where
  | assertFail : EndOutcome
  | waiting : EndOutcome
  | fatal : EndOutcome
  | ok : RendererState → EndOutcome
deriving DecidableEq, Repr

/-- `LveRenderer::endFrame` (src/VulkanEngine/lve_renderer.cpp lines
133-151), parameterised by `maxFrames = LveSwapChain::MAX_FRAMES_IN_FLIGHT`
(a compile-time constant defined in the swapchain header).  Asserts
`isFrameStarted`; ends recording (throwing on failure); submits; on
out-of-date/suboptimal result or a pending window resize it resets the
resize flag and recreates the swapchain, while any other non-success result
throws; finally clears `isFrameStarted` and advances
`currentFrameIndex = (currentFrameIndex + 1) % MAX_FRAMES_IN_FLIGHT`. -/
def endFrame (maxFrames : Nat) (s : RendererState) (env : EndEnv) : EndOutcome :=
  if ¬s.isFrameStarted then .assertFail
  else if ¬env.endCommandBufferOk then .fatal
  else
    let finish : RendererState → EndOutcome := fun st =>
      .ok { st with
        isFrameStarted := false
        currentFrameIndex := (st.currentFrameIndex + 1) % maxFrames }
    if env.submitResult = .errorOutOfDateKHR ∨ env.submitResult = .suboptimalKHR ∨
        env.windowResized then
      match recreateSwapChain (some s.swapChain) env.recreateEnv with
      | .waiting => .waiting
      | .fatal => .fatal
      | .ok sc => finish { s with swapChain := sc }
    else if env.submitResult ≠ .success then .fatal
    else finish s

/-- Modelled from the spec: `MAX_FRAMES_IN_FLIGHT` lives in the swapchain
header, which is not among the provided sources; the spec fixes the typical
frame-in-flight target "N = 2 typical", used here only to instantiate
witnesses. -/
def MAX_FRAMES_IN_FLIGHT : Nat := 2

/-- One full frame as the application's render loop drives it: `beginFrame`
starts the frame and, when it yields a command buffer (not the null skip),
`endFrame` completes it.  `none` when either call does not complete
normally.  Since `endFrame` asserts a frame in progress, every completed
`endFrame` call of a run sits inside such a round; one completed round
performs exactly one completed `endFrame` call. -/
def runFrame (maxFrames : Nat) (s : RendererState) (benv : BeginEnv) (eenv : EndEnv) :
    Option RendererState :=
  match beginFrame s benv with
  | .ok s1 (some _) =>
    match endFrame maxFrames s1 eenv with
    | .ok s2 => some s2
    | _ => none
  | _ => none

/-- Running a list of begin/end frame rounds in sequence — one completed
`endFrame` call per round — stopping with `none` as soon as a round does
not complete normally. -/
def runFrames (maxFrames : Nat) (s : RendererState) (envs : List (BeginEnv × EndEnv)) :
    Option RendererState :=
  envs.foldl (fun acc env => acc.bind fun st => runFrame maxFrames st env.1 env.2) (some s)

/-! ## Descriptors (`src/RayTracing/lve_descriptors.cpp`) -/

/-- One entry of the layout's binding map, the fields of
`VkDescriptorSetLayoutBinding` that `addBinding` fills in (`binding` itself
is the map key): descriptor type, descriptor count and stage flags, all
opaque enum/bitmask codes modelled as `Nat`. -/
structure LayoutBinding where
  descriptorType : Nat
  descriptorCount : Nat
  stageFlags : Nat
deriving DecidableEq, Repr

/-- The builder's `std::unordered_map<uint32_t, VkDescriptorSetLayoutBinding>
bindings` member, modelled as its lookup function. -/
def BindingMap : Type := Nat → Option LayoutBinding

/-- The empty binding map of a freshly constructed builder. -/
def BindingMap.empty : BindingMap := fun _ => none

/-- `bindings[binding] = layoutBinding`: map insertion. -/
def BindingMap.insert (m : BindingMap) (binding : Nat) (b : LayoutBinding) : BindingMap :=
  fun i => if i = binding then some b else m i

/-- The violated `assert`s of the descriptor code, by message. -/
inductive AssertViolation where
  | bindingAlreadyInUse : AssertViolation
  | layoutMissingBinding : AssertViolation
  | bindingExpectsMultiple : AssertViolation
deriving DecidableEq, Repr

/-- One registration request, the argument triple of `addBinding` together
with the binding index. -/
structure BindingSpec where
  binding : Nat
  descriptorType : Nat
  stageFlags : Nat
  count : Nat
deriving DecidableEq, Repr

/-- `LveDescriptorSetLayout::Builder::addBinding`
(src/RayTracing/lve_descriptors.cpp lines 30-43): asserts
`bindings.count(binding) == 0`, then stores a `VkDescriptorSetLayoutBinding`
with the given type, count and stage flags under the index. -/
def Builder.addBinding (m : BindingMap) (spec : BindingSpec) :
    Except AssertViolation BindingMap :=
  match m spec.binding with
  | some _ => .error .bindingAlreadyInUse
  | none =>
    .ok (m.insert spec.binding
      { descriptorType := spec.descriptorType
        descriptorCount := spec.count
        stageFlags := spec.stageFlags })

/-- A sequence of `addBinding` calls on a builder, left to right, stopping
at the first tripped assertion. -/
def Builder.addBindings : BindingMap → List BindingSpec → Except AssertViolation BindingMap
  | m, [] => .ok m
  | m, spec :: rest =>
    match Builder.addBinding m spec with
    | .error e => .error e
    | .ok m2 => Builder.addBindings m2 rest

/-- The built layout: `LveDescriptorSetLayout` stores the builder's binding
map unchanged (`bindings{ bindings }` in the constructor, lines 66-86); the
native `vkCreateDescriptorSetLayout` handle is external and carries no
binding information of its own. -/
structure DescriptorSetLayout where
  bindings : BindingMap

/-- `LveDescriptorSetLayout::Builder::build()` (lines 52-54): hands the
accumulated map to the `LveDescriptorSetLayout` constructor. -/
def Builder.build (m : BindingMap) : DescriptorSetLayout :=
  { bindings := m }

/-- The descriptor pool: capacity `maxSets` fixed at construction, the
number of sets currently allocated from it, and a counter producing fresh
`VkDescriptorSet` handles (modelled as `Nat`). -/
structure PoolState where
  maxSets : Nat
  allocatedCount : Nat
  nextHandle : Nat
deriving DecidableEq, Repr

/-- Modelled from the spec: the driver call `vkAllocateDescriptorSets` is
external to the repository; per the spec the pool is "a fixed-capacity
allocator ... parameterized by a maximum set count", so allocation of one
set succeeds with a fresh handle while fewer than `maxSets` sets are
outstanding and fails once the pool is exhausted. -/
def vkAllocateDescriptorSets (p : PoolState) : Option (PoolState × Nat) :=
  if p.allocatedCount < p.maxSets then
    some ({ p with allocatedCount := p.allocatedCount + 1, nextHandle := p.nextHandle + 1 },
      p.nextHandle)
  else none

/-- `LveDescriptorPool::allocateDescriptor` (src/RayTracing/lve_descriptors.cpp
lines 201-215): calls `vkAllocateDescriptorSets` on the out-parameter
`descriptor`; returns `false` on any non-success result, leaving the
out-parameter as the caller passed it, and `true` otherwise with the
allocated set stored there.  The function body contains no `throw`; its
only exits are the two `return` statements, which the total return type of
this embedding reflects. -/
def allocateDescriptor (p : PoolState) (descriptor : Nat) : Bool × PoolState × Nat :=
  match vkAllocateDescriptorSets p with
  | none => (false, p, descriptor)
  | some (p2, d) => (true, p2, d)

/-- The payload of one queued `VkWriteDescriptorSet`: a buffer write carries
the `VkDescriptorBufferInfo` pointer, an image write the
`VkDescriptorImageInfo` pointer (opaque, modelled as `Nat`). -/
inductive WriteInfo where
  | buffer : Nat → WriteInfo
  | image : Nat → WriteInfo
deriving DecidableEq, Repr

/-- One element of the writer's `writes` vector: the fields of
`VkWriteDescriptorSet` that `writeBuffer`/`writeImage` fill (each sets
`descriptorCount = 1`; `dstSet` is filled later by `overwrite`). -/
structure PendingWrite where
  descriptorType : Nat
  dstBinding : Nat
  info : WriteInfo
deriving DecidableEq, Repr

/-- The writer: its layout's binding map and the queued `writes` vector
(`LveDescriptorWriter` also stores the pool; the pool is passed separately
where needed). -/
structure WriterState where
  layoutBindings : BindingMap
  writes : List PendingWrite

/-- `LveDescriptorWriter::writeBuffer` (src/RayTracing/lve_descriptors.cpp
lines 263-282): asserts `setLayout.bindings.count(binding) == 1`, asserts
the binding's `descriptorCount == 1`, then appends one
`VkWriteDescriptorSet` carrying the buffer info. -/
def writeBuffer (w : WriterState) (binding : Nat) (bufferInfo : Nat) :
    Except AssertViolation WriterState :=
  match w.layoutBindings binding with
  | none => .error .layoutMissingBinding
  | some bd =>
    if bd.descriptorCount ≠ 1 then .error .bindingExpectsMultiple
    else
      .ok { w with writes := w.writes ++
        [{ descriptorType := bd.descriptorType
           dstBinding := binding
           info := .buffer bufferInfo }] }

/-- `LveDescriptorWriter::writeImage` (src/RayTracing/lve_descriptors.cpp
lines 293-312): identical to `writeBuffer` except that the queued write
carries the image info. -/
def writeImage (w : WriterState) (binding : Nat) (imageInfo : Nat) :
    Except AssertViolation WriterState :=
  match w.layoutBindings binding with
  | none => .error .layoutMissingBinding
  | some bd =>
    if bd.descriptorCount ≠ 1 then .error .bindingExpectsMultiple
    else
      .ok { w with writes := w.writes ++
        [{ descriptorType := bd.descriptorType
           dstBinding := binding
           info := .image imageInfo }] }

/-- The observable contents of one descriptor set: which write is bound at
each binding index. -/
def SetContents : Type := Nat → Option PendingWrite

/-- The state of all descriptor sets, indexed by set handle. -/
def DescMem : Type := Nat → SetContents

/-- Applying the batched `vkUpdateDescriptorSets` of
`LveDescriptorWriter::overwrite` (lines 338-343) to the contents of the
target set: each queued write lands at its `dstBinding`. -/
def applyWrites (c : SetContents) (writes : List PendingWrite) : SetContents :=
  writes.foldl (fun acc w => fun b => if b = w.dstBinding then some w else acc b) c

/-- `LveDescriptorWriter::overwrite(set)`: stamps `dstSet = set` on every
queued write and performs one `vkUpdateDescriptorSets` call; on the
descriptor memory this updates exactly the target set's contents. -/
def overwrite (dmem : DescMem) (set : Nat) (writes : List PendingWrite) : DescMem :=
  fun h => if h = set then applyWrites (dmem h) writes else dmem h

/-- `LveDescriptorWriter::build` (src/RayTracing/lve_descriptors.cpp lines
322-329): allocates a fresh set from the pool via
`pool.allocateDescriptor(layout, set)`; if that fails, returns `false` at
once (applying no writes); otherwise applies the queued writes to the newly
allocated set with `overwrite(set)` and returns `true`.  The result tuple
carries (success, pool, the caller's set handle, descriptor memory). -/
def Writer.build (w : WriterState) (p : PoolState) (set : Nat) (dmem : DescMem) :
    Bool × PoolState × Nat × DescMem :=
  match allocateDescriptor p set with
  | (false, p2, s2) => (false, p2, s2, dmem)
  | (true, p2, s2) => (true, p2, s2, overwrite dmem s2 w.writes)

/-! ## Helper lemmas on the frame protocol -/

/-- A normally completed `endFrame` clears the in-progress flag and advances
the frame-in-flight index by one modulo the frame-in-flight count; the
image index is untouched. -/
lemma endFrame_ok_spec (maxFrames : Nat) (s : RendererState) (env : EndEnv)
    (s2 : RendererState) (h : endFrame maxFrames s env = .ok s2) :
    s2.isFrameStarted = false ∧
    s2.currentFrameIndex = (s.currentFrameIndex + 1) % maxFrames ∧
    s2.currentImageIndex = s.currentImageIndex := by
  unfold endFrame at h
  split at h
  · exact absurd h (by simp)
  · split at h
    · exact absurd h (by simp)
    · split at h
      · split at h
        · exact absurd h (by simp)
        · exact absurd h (by simp)
        · cases h
          simp
      · split at h
        · exact absurd h (by simp)
        · cases h
          simp

/-- `beginFrame` leaves the frame-in-flight index untouched on every normal
return. -/
lemma beginFrame_ok_frameIndex (s : RendererState) (env : BeginEnv)
    (s2 : RendererState) (cb : Option Nat) (h : beginFrame s env = .ok s2 cb) :
    s2.currentFrameIndex = s.currentFrameIndex := by
  unfold beginFrame at h
  split at h
  · exact absurd h (by simp)
  · split at h
    · split at h
      · exact absurd h (by simp)
      · exact absurd h (by simp)
      · cases h
        simp
    · split at h
      · exact absurd h (by simp)
      · split at h
        · cases h
          simp
        · exact absurd h (by simp)

/-- A completed begin/end round clears the in-progress flag and advances
the frame-in-flight index by exactly one modulo the frame-in-flight count —
the advance is `endFrame`'s alone, since `beginFrame` preserves the
index. -/
lemma runFrame_spec (maxFrames : Nat) (s : RendererState) (benv : BeginEnv)
    (eenv : EndEnv) (s2 : RendererState)
    (h : runFrame maxFrames s benv eenv = some s2) :
    s2.isFrameStarted = false ∧
    s2.currentFrameIndex = (s.currentFrameIndex + 1) % maxFrames := by
  unfold runFrame at h
  cases hb : beginFrame s benv with
  | ok s1 cb =>
    rw [hb] at h
    cases cb with
    | none => exact absurd h (by simp)
    | some c =>
      replace h :
          (match endFrame maxFrames s1 eenv with
            | EndOutcome.ok s4 => some s4
            | _ => none) = some s2 := h
      cases he : endFrame maxFrames s1 eenv with
      | ok s3 =>
        rw [he] at h
        simp only [Option.some.injEq] at h
        subst h
        obtain ⟨h1, h2, -⟩ := endFrame_ok_spec maxFrames s1 eenv s3 he
        rw [beginFrame_ok_frameIndex s benv s1 (some c) hb] at h2
        exact ⟨h1, h2⟩
      | assertFail => rw [he] at h; exact absurd h (by simp)
      | waiting => rw [he] at h; exact absurd h (by simp)
      | fatal => rw [he] at h; exact absurd h (by simp)
  | assertFail => rw [hb] at h; exact absurd h (by simp)
  | waiting => rw [hb] at h; exact absurd h (by simp)
  | fatal => rw [hb] at h; exact absurd h (by simp)

/-- Folding the frame runner over a dead (`none`) accumulator stays dead. -/
lemma runFrames_foldl_none (maxFrames : Nat) (envs : List (BeginEnv × EndEnv)) :
    envs.foldl (fun acc env => acc.bind fun st => runFrame maxFrames st env.1 env.2)
      none = none := by
  induction envs with
  | nil => rfl
  | cons e rest ih => simpa [List.foldl_cons] using ih

/-- Unfolding one round of `runFrames`. -/
lemma runFrames_cons (maxFrames : Nat) (s : RendererState) (env : BeginEnv × EndEnv)
    (rest : List (BeginEnv × EndEnv)) :
    runFrames maxFrames s (env :: rest) =
      match runFrame maxFrames s env.1 env.2 with
      | some s1 => runFrames maxFrames s1 rest
      | none => none := by
  unfold runFrames
  cases h : runFrame maxFrames s env.1 env.2 <;>
    simp [List.foldl_cons, h, runFrames_foldl_none]

/-- After any successful run of begin/end rounds starting below the
frame-in-flight count, the index has advanced by the number of rounds —
one completed `endFrame` call each — modulo that count. -/
lemma runFrames_index (maxFrames : Nat) (hm : 0 < maxFrames) :
    ∀ (envs : List (BeginEnv × EndEnv)) (s s2 : RendererState),
      s.currentFrameIndex < maxFrames →
      runFrames maxFrames s envs = some s2 →
      s2.currentFrameIndex = (s.currentFrameIndex + envs.length) % maxFrames := by
  intro envs
  induction envs with
  | nil =>
    intro s s2 hlt h
    cases h
    simp [Nat.mod_eq_of_lt hlt]
  | cons env rest ih =>
    intro s s2 hlt h
    rw [runFrames_cons] at h
    cases he : runFrame maxFrames s env.1 env.2 with
    | some s1 =>
      rw [he] at h
      obtain ⟨-, hidx⟩ := runFrame_spec maxFrames s env.1 env.2 s1 he
      have hlt1 : s1.currentFrameIndex < maxFrames := by
        rw [hidx]; exact Nat.mod_lt _ hm
      have := ih s1 s2 hlt1 h
      rw [this, hidx, Nat.mod_add_mod, List.length_cons]
      ring_nf
    | none => rw [he] at h; exact absurd h (by simp)

/-! ## Claim theorems: frame orchestrator -/

/-- C1: the claim says `recreateSwapChain` waits while either extent
dimension is zero and then passes the observed extent to swapchain
construction unmodified.  The code diverges: the loop guard
`extent.width = 0 || extent.height == 0` ASSIGNS to `extent.width`, so the
loop (i) does not wait at all when the width is zero but the height is not,
and (ii) zeroes the width of the extent it hands to the constructor.  At
the concrete observed extent 800x600 the code constructs the swapchain with
extent 0x600 (the intended loop `waitLoopSpec` would pass 800x600), and at
observed extent 0x600 it proceeds immediately instead of waiting. -/
theorem recreateSwapChain_clobbers_width_at_800x600 :
    waitLoop ⟨800, 600⟩ [] = some ⟨0, 600⟩ ∧
    waitLoop ⟨0, 600⟩ [] = some ⟨0, 600⟩ ∧
    waitLoopSpec ⟨800, 600⟩ [] = some ⟨800, 600⟩ ∧
    waitLoopSpec ⟨0, 600⟩ [] = none ∧
    recreateSwapChain none
        { firstExtent := ⟨800, 600⟩, moreExtents := [],
          newImageFormat := 10, newDepthFormat := 20 } =
      .ok { imageFormat := 10, depthFormat := 20, swapChainExtent := ⟨0, 600⟩ } := by
  decide

/-- C2: with no frame in progress, `beginFrame` on a surface-outdated
acquisition recreates the swapchain and returns the null command buffer
(a non-error skip); on any other non-success, non-suboptimal acquisition
status it throws the fatal error. -/
theorem beginFrame_outOfDate_skips_or_fatal (s : RendererState) (env : BeginEnv)
    (hs : s.isFrameStarted = false) :
    (env.acquireResult = .errorOutOfDateKHR →
      ∀ sc, recreateSwapChain (some s.swapChain) env.recreateEnv = .ok sc →
        beginFrame s env = .ok { s with swapChain := sc } none) ∧
    (env.acquireResult = .otherError → beginFrame s env = .fatal) := by
  constructor
  · intro ha sc hr
    simp [beginFrame, hs, ha, hr]
  · intro ha
    simp [beginFrame, hs, ha]

/-- Witness for `beginFrame_outOfDate_skips_or_fatal` at a concrete state
and environments. -/
theorem beginFrame_outOfDate_skips_or_fatal_witness :
    beginFrame
        { isFrameStarted := false, currentImageIndex := 0, currentFrameIndex := 1,
          swapChain := { imageFormat := 10, depthFormat := 20, swapChainExtent := ⟨0, 480⟩ } }
        { acquireResult := .errorOutOfDateKHR, acquiredImageIndex := 0,
          recreateEnv := { firstExtent := ⟨640, 480⟩, moreExtents := [],
                           newImageFormat := 10, newDepthFormat := 20 },
          beginCommandBufferOk := true } =
      .ok
        { isFrameStarted := false, currentImageIndex := 0, currentFrameIndex := 1,
          swapChain := { imageFormat := 10, depthFormat := 20, swapChainExtent := ⟨0, 480⟩ } }
        none ∧
    beginFrame
        { isFrameStarted := false, currentImageIndex := 0, currentFrameIndex := 1,
          swapChain := { imageFormat := 10, depthFormat := 20, swapChainExtent := ⟨0, 480⟩ } }
        { acquireResult := .otherError, acquiredImageIndex := 0,
          recreateEnv := { firstExtent := ⟨640, 480⟩, moreExtents := [],
                           newImageFormat := 10, newDepthFormat := 20 },
          beginCommandBufferOk := true } = .fatal := by
  refine ⟨(beginFrame_outOfDate_skips_or_fatal _ _ rfl).1 rfl _ (by decide),
    (beginFrame_outOfDate_skips_or_fatal _ _ rfl).2 rfl⟩

/-- C3: every normally completed `endFrame` clears the in-progress flag and
advances the frame-in-flight index by one modulo the frame-in-flight count.
Consequently, since `endFrame` asserts a frame in progress, exactly
`maxFrames` completed `endFrame` calls occur as `maxFrames` completed
begin/end rounds, and such a run brings the index back to its initial value
(`beginFrame` preserves the index, so the advance is `endFrame`'s alone;
the index of a live renderer is always below `maxFrames`, which the second
part assumes of the starting state). -/
theorem endFrame_advances_index_and_cycles (maxFrames : Nat) :
    (∀ (s : RendererState) (env : EndEnv) (s2 : RendererState),
      endFrame maxFrames s env = .ok s2 →
        s2.isFrameStarted = false ∧
        s2.currentFrameIndex = (s.currentFrameIndex + 1) % maxFrames) ∧
    (0 < maxFrames →
      ∀ (envs : List (BeginEnv × EndEnv)) (s s2 : RendererState),
        s.currentFrameIndex < maxFrames →
        envs.length = maxFrames →
        runFrames maxFrames s envs = some s2 →
        s2.currentFrameIndex = s.currentFrameIndex) := by
  constructor
  · intro s env s2 h
    obtain ⟨h1, h2, -⟩ := endFrame_ok_spec maxFrames s env s2 h
    exact ⟨h1, h2⟩
  · intro hm envs s s2 hlt hlen hrun
    have := runFrames_index maxFrames hm envs s s2 hlt hrun
    rw [this, hlen, Nat.add_mod_right, Nat.mod_eq_of_lt hlt]

/-- Witness for `endFrame_advances_index_and_cycles` with
`MAX_FRAMES_IN_FLIGHT = 2`: the concrete run of two completed begin/end
rounds — two completed `endFrame` calls — actually completes (first
conjunct, evaluated) and returns the frame-in-flight index to its initial
value 0 (second conjunct, by the theorem); one completed `endFrame` call
alone advances the index 0 to 1 and clears the flag (third conjunct, by the
theorem). -/
theorem endFrame_advances_index_and_cycles_witness :
    (runFrames 2
        { isFrameStarted := false, currentImageIndex := 0, currentFrameIndex := 0,
          swapChain := { imageFormat := 10, depthFormat := 20, swapChainExtent := ⟨640, 480⟩ } }
        [({ acquireResult := .success, acquiredImageIndex := 5,
            recreateEnv := { firstExtent := ⟨640, 480⟩, moreExtents := [],
                             newImageFormat := 10, newDepthFormat := 20 },
            beginCommandBufferOk := true },
          { endCommandBufferOk := true, submitResult := .success, windowResized := false,
            recreateEnv := { firstExtent := ⟨640, 480⟩, moreExtents := [],
                             newImageFormat := 10, newDepthFormat := 20 } }),
         ({ acquireResult := .success, acquiredImageIndex := 5,
            recreateEnv := { firstExtent := ⟨640, 480⟩, moreExtents := [],
                             newImageFormat := 10, newDepthFormat := 20 },
            beginCommandBufferOk := true },
          { endCommandBufferOk := true, submitResult := .success, windowResized := false,
            recreateEnv := { firstExtent := ⟨640, 480⟩, moreExtents := [],
                             newImageFormat := 10, newDepthFormat := 20 } })] =
      some
        { isFrameStarted := false, currentImageIndex := 5, currentFrameIndex := 0,
          swapChain := { imageFormat := 10, depthFormat := 20, swapChainExtent := ⟨640, 480⟩ } }) ∧
    (∀ s2 : RendererState,
      runFrames 2
        { isFrameStarted := false, currentImageIndex := 0, currentFrameIndex := 0,
          swapChain := { imageFormat := 10, depthFormat := 20, swapChainExtent := ⟨640, 480⟩ } }
        [({ acquireResult := .success, acquiredImageIndex := 5,
            recreateEnv := { firstExtent := ⟨640, 480⟩, moreExtents := [],
                             newImageFormat := 10, newDepthFormat := 20 },
            beginCommandBufferOk := true },
          { endCommandBufferOk := true, submitResult := .success, windowResized := false,
            recreateEnv := { firstExtent := ⟨640, 480⟩, moreExtents := [],
                             newImageFormat := 10, newDepthFormat := 20 } }),
         ({ acquireResult := .success, acquiredImageIndex := 5,
            recreateEnv := { firstExtent := ⟨640, 480⟩, moreExtents := [],
                             newImageFormat := 10, newDepthFormat := 20 },
            beginCommandBufferOk := true },
          { endCommandBufferOk := true, submitResult := .success, windowResized := false,
            recreateEnv := { firstExtent := ⟨640, 480⟩, moreExtents := [],
                             newImageFormat := 10, newDepthFormat := 20 } })] = some s2 →
      s2.currentFrameIndex = 0) ∧
    (∀ s2 : RendererState,
      endFrame 2
        { isFrameStarted := true, currentImageIndex := 5, currentFrameIndex := 0,
          swapChain := { imageFormat := 10, depthFormat := 20, swapChainExtent := ⟨640, 480⟩ } }
        { endCommandBufferOk := true, submitResult := .success, windowResized := false,
          recreateEnv := { firstExtent := ⟨640, 480⟩, moreExtents := [],
                           newImageFormat := 10, newDepthFormat := 20 } } = .ok s2 →
      s2.isFrameStarted = false ∧ s2.currentFrameIndex = 1) := by
  refine ⟨by decide, fun s2 h => ?_, fun s2 h => ?_⟩
  · exact (endFrame_advances_index_and_cycles 2).2 (by decide) _ _ _ (by decide) (by decide) h
  · exact (endFrame_advances_index_and_cycles 2).1 _ _ _ h

/-- C4: the frame protocol's precondition `assert`s: `beginFrame` while a
frame is already in progress trips the in-progress assertion, and
`endFrame` while no frame is in progress trips the not-in-progress
assertion, for every state and environment — begin and end must strictly
alternate. -/
theorem frame_protocol_assert_violations (maxFrames : Nat) (s : RendererState)
    (env1 : BeginEnv) (env2 : EndEnv) :
    beginFrame { s with isFrameStarted := true } env1 = .assertFail ∧
    endFrame maxFrames { s with isFrameStarted := false } env2 = .assertFail := by
  constructor
  · simp [beginFrame]
  · simp [endFrame]

/-- C5: recreation with an existing old swapchain: after the new swapchain
is constructed (with the old one passed along as transfer source), the
image and depth formats are validated against the old instance; matching
formats succeed silently with the new swapchain installed, and any mismatch
throws the fatal format-changed error. -/
theorem recreateSwapChain_format_check (old : SwapChain) (env : RecreateEnv)
    (e : Extent) (hw : waitLoop env.firstExtent env.moreExtents = some e) :
    (old.imageFormat = env.newImageFormat ∧ old.depthFormat = env.newDepthFormat →
      recreateSwapChain (some old) env =
        .ok { imageFormat := env.newImageFormat, depthFormat := env.newDepthFormat,
              swapChainExtent := e }) ∧
    (old.imageFormat ≠ env.newImageFormat ∨ old.depthFormat ≠ env.newDepthFormat →
      recreateSwapChain (some old) env = .fatal) := by
  constructor
  · intro ⟨h1, h2⟩
    simp [recreateSwapChain, hw, SwapChain.compareSwapFormats, h1, h2]
  · intro h
    rcases h with h | h <;>
      simp [recreateSwapChain, hw, SwapChain.compareSwapFormats, h]

/-- Witness for `recreateSwapChain_format_check`: matching formats succeed,
a mismatched image format is fatal. -/
theorem recreateSwapChain_format_check_witness :
    recreateSwapChain
        (some { imageFormat := 10, depthFormat := 20, swapChainExtent := ⟨640, 480⟩ })
        { firstExtent := ⟨640, 480⟩, moreExtents := [],
          newImageFormat := 10, newDepthFormat := 20 } =
      .ok { imageFormat := 10, depthFormat := 20, swapChainExtent := ⟨0, 480⟩ } ∧
    recreateSwapChain
        (some { imageFormat := 11, depthFormat := 20, swapChainExtent := ⟨640, 480⟩ })
        { firstExtent := ⟨640, 480⟩, moreExtents := [],
          newImageFormat := 10, newDepthFormat := 20 } = .fatal := by
  refine ⟨(recreateSwapChain_format_check _ _ ⟨0, 480⟩ (by decide)).1 (by decide),
    (recreateSwapChain_format_check _ _ ⟨0, 480⟩ (by decide)).2 (by decide)⟩

/-- C10: `beginFrame` never changes the frame-in-flight index on any normal
return, and on the surface-outdated skip (null return) the in-progress flag
is still clear afterwards — a skipped frame does not advance the frame
cycle. -/
theorem beginFrame_skip_preserves_state (s : RendererState) (env : BeginEnv) :
    (∀ (s2 : RendererState) (cb : Option Nat),
      beginFrame s env = .ok s2 cb → s2.currentFrameIndex = s.currentFrameIndex) ∧
    (s.isFrameStarted = false → env.acquireResult = .errorOutOfDateKHR →
      ∀ (s2 : RendererState) (cb : Option Nat),
        beginFrame s env = .ok s2 cb →
          cb = none ∧ s2.isFrameStarted = false ∧
          s2.currentFrameIndex = s.currentFrameIndex) := by
  have hmain : ∀ (s2 : RendererState) (cb : Option Nat),
      beginFrame s env = .ok s2 cb →
        (s2.currentFrameIndex = s.currentFrameIndex ∧
          (env.acquireResult = .errorOutOfDateKHR →
            cb = none ∧ s2.isFrameStarted = s.isFrameStarted)) := by
    intro s2 cb h
    unfold beginFrame at h
    split at h
    · exact absurd h (by simp)
    · split at h
      · split at h
        · exact absurd h (by simp)
        · exact absurd h (by simp)
        · cases h
          simp
      · split at h
        · exact absurd h (by simp)
        · split at h
          · cases h
            simp_all
          · exact absurd h (by simp)
  constructor
  · intro s2 cb h
    exact (hmain s2 cb h).1
  · intro hs ha s2 cb h
    obtain ⟨h1, h2⟩ := hmain s2 cb h
    obtain ⟨h3, h4⟩ := h2 ha
    exact ⟨h3, h4.trans hs, h1⟩

/-- Witness for `beginFrame_skip_preserves_state`: a successful begin keeps
the frame index, and a skipped (outdated) begin keeps the flag clear. -/
theorem beginFrame_skip_preserves_state_witness :
    (∀ (s2 : RendererState) (cb : Option Nat),
      beginFrame
        { isFrameStarted := false, currentImageIndex := 0, currentFrameIndex := 1,
          swapChain := { imageFormat := 10, depthFormat := 20, swapChainExtent := ⟨640, 480⟩ } }
        { acquireResult := .errorOutOfDateKHR, acquiredImageIndex := 2,
          recreateEnv := { firstExtent := ⟨640, 480⟩, moreExtents := [],
                           newImageFormat := 10, newDepthFormat := 20 },
          beginCommandBufferOk := true } = .ok s2 cb →
        cb = none ∧ s2.isFrameStarted = false ∧ s2.currentFrameIndex = 1) := by
  intro s2 cb h
  exact (beginFrame_skip_preserves_state _ _).2 rfl rfl s2 cb h

/-! ## Helper lemmas on the layout builder -/

/-- The layout binding a registration request turns into. -/
def BindingSpec.toLayoutBinding (spec : BindingSpec) : LayoutBinding :=
  { descriptorType := spec.descriptorType
    descriptorCount := spec.count
    stageFlags := spec.stageFlags }

/-- The bindings a call sequence registers, as a lookup: the first request
carrying the index wins (with pairwise-distinct indices there is at most
one). -/
def registeredBindings : List BindingSpec → Nat → Option LayoutBinding
  | [], _ => none
  | spec :: rest, i =>
    if i = spec.binding then some spec.toLayoutBinding else registeredBindings rest i

lemma registeredBindings_eq_none (l : List BindingSpec) (i : Nat)
    (h : i ∉ l.map BindingSpec.binding) : registeredBindings l i = none := by
  induction l with
  | nil => rfl
  | cons spec rest ih =>
    simp only [List.map_cons, List.mem_cons, not_or] at h
    simp only [registeredBindings, if_neg h.1]
    exact ih h.2

lemma registeredBindings_mem {l : List BindingSpec} {i : Nat} {b : LayoutBinding}
    (h : registeredBindings l i = some b) :
    ∃ spec ∈ l, spec.binding = i ∧ spec.toLayoutBinding = b := by
  induction l with
  | nil => exact absurd h (by simp [registeredBindings])
  | cons spec rest ih =>
    by_cases hi : i = spec.binding
    · rw [registeredBindings, if_pos hi] at h
      exact ⟨spec, List.mem_cons_self _ _, hi.symm, Option.some_injective _ h⟩
    · rw [registeredBindings, if_neg hi] at h
      obtain ⟨s2, hs2, h1, h2⟩ := ih h
      exact ⟨s2, List.mem_cons_of_mem _ hs2, h1, h2⟩

lemma registeredBindings_of_mem {l : List BindingSpec} {spec : BindingSpec}
    (hmem : spec ∈ l) (hnd : (l.map BindingSpec.binding).Nodup) :
    registeredBindings l spec.binding = some spec.toLayoutBinding := by
  induction l with
  | nil => exact absurd hmem (List.not_mem_nil spec)
  | cons s2 rest ih =>
    simp only [List.map_cons, List.nodup_cons] at hnd
    rcases List.mem_cons.mp hmem with h | h
    · subst h
      simp [registeredBindings]
    · have hne : spec.binding ≠ s2.binding := by
        intro he
        exact hnd.1 (he ▸ List.mem_map_of_mem BindingSpec.binding h)
      rw [registeredBindings, if_neg hne]
      exact ih h hnd.2

/-- With pairwise-distinct indices, the registered bindings are invariant
under permutation of the call sequence. -/
lemma registeredBindings_perm {l l2 : List BindingSpec} (hp : l.Perm l2)
    (hnd : (l.map BindingSpec.binding).Nodup) (i : Nat) :
    registeredBindings l i = registeredBindings l2 i := by
  have hnd2 : (l2.map BindingSpec.binding).Nodup := (hp.map BindingSpec.binding).nodup_iff.mp hnd
  cases h : registeredBindings l i with
  | some b =>
    obtain ⟨spec, hmem, hbind, hval⟩ := registeredBindings_mem h
    have := registeredBindings_of_mem (hp.mem_iff.mp hmem) hnd2
    rw [hbind, hval] at this
    exact this.symm
  | none =>
    have : i ∉ l2.map BindingSpec.binding := by
      intro hmem
      have : i ∈ l.map BindingSpec.binding := ((hp.map BindingSpec.binding).mem_iff).mpr hmem
      obtain ⟨spec, hs, hb⟩ := List.mem_map.mp this
      have := registeredBindings_of_mem hs hnd
      rw [hb] at this
      rw [h] at this
      exact absurd this (by simp)
    exact (registeredBindings_eq_none l2 i this).symm

/-- A run of `addBinding` calls whose indices are pairwise distinct and all
fresh for the accumulator succeeds, and the final map answers from the run's
registrations first, falling back to the accumulator. -/
lemma addBindings_spec :
    ∀ (l : List BindingSpec) (m : BindingMap),
      (l.map BindingSpec.binding).Nodup →
      (∀ spec ∈ l, m spec.binding = none) →
      ∃ m2, Builder.addBindings m l = .ok m2 ∧
        ∀ i, m2 i =
          match registeredBindings l i with
          | some b => some b
          | none => m i := by
  intro l
  induction l with
  | nil =>
    intro m _ _
    exact ⟨m, rfl, fun i => by simp [registeredBindings]⟩
  | cons spec rest ih =>
    intro m hnd hfresh
    simp only [List.map_cons, List.nodup_cons] at hnd
    have hm : m spec.binding = none := hfresh spec (List.mem_cons_self _ _)
    have hstep : Builder.addBinding m spec =
        .ok (m.insert spec.binding spec.toLayoutBinding) := by
      simp [Builder.addBinding, hm, BindingSpec.toLayoutBinding]
    have hfresh2 : ∀ s2 ∈ rest, (m.insert spec.binding spec.toLayoutBinding) s2.binding = none := by
      intro s2 hs2
      have hne : s2.binding ≠ spec.binding := by
        intro he
        exact hnd.1 (he ▸ List.mem_map_of_mem BindingSpec.binding hs2)
      rw [BindingMap.insert, if_neg hne]
      exact hfresh s2 (List.mem_cons_of_mem _ hs2)
    obtain ⟨m2, hrun, hchar⟩ := ih (m.insert spec.binding spec.toLayoutBinding) hnd.2 hfresh2
    refine ⟨m2, ?_, ?_⟩
    · simp [Builder.addBindings, hstep, hrun]
    · intro i
      rw [hchar i]
      by_cases hi : i = spec.binding
      · subst hi
        have h0 : registeredBindings rest spec.binding = none :=
          registeredBindings_eq_none rest spec.binding hnd.1
        rw [h0]
        simp [registeredBindings, BindingMap.insert]
      · rw [registeredBindings, if_neg hi]
        cases hr : registeredBindings rest i
        · simp [BindingMap.insert, hi]
        · rfl

/-! ## Claim theorems: descriptors -/

/-- C6: `allocateDescriptor` reports success or failure through its boolean
result and never throws (its embedding is a total function with no error
outcome): while the pool has spare capacity the call returns `true` with
the freshly allocated set stored through the out-parameter, and once the
pool is exhausted — e.g. the second allocation from a `maxSets = 1`
pool — it returns `false` with the out-parameter left exactly as the
caller passed it. -/
theorem allocateDescriptor_success_failure (p : PoolState) (d : Nat) :
    (p.allocatedCount < p.maxSets →
      allocateDescriptor p d =
        (true,
          { p with allocatedCount := p.allocatedCount + 1, nextHandle := p.nextHandle + 1 },
          p.nextHandle)) ∧
    (p.maxSets ≤ p.allocatedCount → allocateDescriptor p d = (false, p, d)) := by
  constructor
  · intro h
    simp [allocateDescriptor, vkAllocateDescriptorSets, h]
  · intro h
    simp [allocateDescriptor, vkAllocateDescriptorSets, Nat.not_lt.mpr h]

/-- Witness for `allocateDescriptor_success_failure`: on a `maxSets = 1`
pool the first allocation succeeds and the second fails, returning `false`
rather than aborting. -/
theorem allocateDescriptor_success_failure_witness :
    allocateDescriptor { maxSets := 1, allocatedCount := 0, nextHandle := 0 } 7 =
      (true, { maxSets := 1, allocatedCount := 1, nextHandle := 1 }, 0) ∧
    allocateDescriptor { maxSets := 1, allocatedCount := 1, nextHandle := 1 } 7 =
      (false, { maxSets := 1, allocatedCount := 1, nextHandle := 1 }, 7) := by
  exact ⟨(allocateDescriptor_success_failure _ 7).1 (by decide),
    (allocateDescriptor_success_failure _ 7).2 (by decide)⟩

/-- C7: `LveDescriptorWriter::build` first allocates a fresh set; when the
pool is exhausted it returns `false` with the pool, the caller's set handle
and the entire descriptor memory unchanged (no queued write applied); only
on successful allocation does it apply all queued writes, and then exactly
to the freshly allocated set. -/
theorem writer_build_alloc_failure_no_mutation (w : WriterState) (p : PoolState)
    (set : Nat) (dmem : DescMem) :
    (p.maxSets ≤ p.allocatedCount →
      Writer.build w p set dmem = (false, p, set, dmem)) ∧
    (p.allocatedCount < p.maxSets →
      Writer.build w p set dmem =
        (true,
          { p with allocatedCount := p.allocatedCount + 1, nextHandle := p.nextHandle + 1 },
          p.nextHandle,
          overwrite dmem p.nextHandle w.writes)) := by
  constructor
  · intro h
    simp [Writer.build, allocateDescriptor, vkAllocateDescriptorSets, Nat.not_lt.mpr h]
  · intro h
    simp [Writer.build, allocateDescriptor, vkAllocateDescriptorSets, h]

/-- Witness for `writer_build_alloc_failure_no_mutation`: on an exhausted
`maxSets = 1` pool, `build` fails leaving the handle `7` and the descriptor
memory untouched. -/
theorem writer_build_alloc_failure_no_mutation_witness :
    Writer.build { layoutBindings := BindingMap.empty, writes := [] }
        { maxSets := 1, allocatedCount := 1, nextHandle := 1 } 7 (fun _ _ => none) =
      (false, { maxSets := 1, allocatedCount := 1, nextHandle := 1 }, 7, fun _ _ => none) := by
  exact (writer_build_alloc_failure_no_mutation _ _ 7 _).1 (by decide)

/-- C8: `writeBuffer` and `writeImage` trip the missing-binding assertion
when the index is absent from the writer's layout, trip the arity assertion
when the layout declares a descriptor count other than one there, and
otherwise each append exactly one pending write for that binding. -/
theorem write_binding_asserts_and_append (w : WriterState) (binding : Nat)
    (bufferInfo imageInfo : Nat) :
    (w.layoutBindings binding = none →
      writeBuffer w binding bufferInfo = .error .layoutMissingBinding ∧
      writeImage w binding imageInfo = .error .layoutMissingBinding) ∧
    (∀ bd, w.layoutBindings binding = some bd → bd.descriptorCount ≠ 1 →
      writeBuffer w binding bufferInfo = .error .bindingExpectsMultiple ∧
      writeImage w binding imageInfo = .error .bindingExpectsMultiple) ∧
    (∀ bd, w.layoutBindings binding = some bd → bd.descriptorCount = 1 →
      writeBuffer w binding bufferInfo =
        .ok { w with writes := w.writes ++
          [{ descriptorType := bd.descriptorType, dstBinding := binding,
             info := .buffer bufferInfo }] } ∧
      writeImage w binding imageInfo =
        .ok { w with writes := w.writes ++
          [{ descriptorType := bd.descriptorType, dstBinding := binding,
             info := .image imageInfo }] }) := by
  refine ⟨fun h => ?_, fun bd h hc => ?_, fun bd h hc => ?_⟩
  · constructor <;> simp [writeBuffer, writeImage, h]
  · constructor <;> simp [writeBuffer, writeImage, h, hc]
  · constructor <;> simp [writeBuffer, writeImage, h, hc]

/-- Witness for `write_binding_asserts_and_append` on a one-binding layout:
binding 0 (count 1) accepts one queued write, binding 1 is missing, and a
count-3 binding is rejected. -/
theorem write_binding_asserts_and_append_witness :
    (writeBuffer
        { layoutBindings :=
            BindingMap.empty.insert 0
              { descriptorType := 6, descriptorCount := 1, stageFlags := 17 }
          writes := [] } 0 42 =
      .ok
        { layoutBindings :=
            BindingMap.empty.insert 0
              { descriptorType := 6, descriptorCount := 1, stageFlags := 17 }
          writes := [{ descriptorType := 6, dstBinding := 0, info := .buffer 42 }] }) ∧
    (writeImage
        { layoutBindings :=
            BindingMap.empty.insert 0
              { descriptorType := 6, descriptorCount := 1, stageFlags := 17 }
          writes := [] } 1 42 =
      .error .layoutMissingBinding) ∧
    (writeBuffer
        { layoutBindings :=
            BindingMap.empty.insert 0
              { descriptorType := 6, descriptorCount := 3, stageFlags := 17 }
          writes := [] } 0 42 =
      .error .bindingExpectsMultiple) := by
  refine ⟨((write_binding_asserts_and_append _ 0 42 42).2.2
      { descriptorType := 6, descriptorCount := 1, stageFlags := 17 } rfl rfl).1, ?_, ?_⟩
  · exact ((write_binding_asserts_and_append _ 1 42 42).1 rfl).2
  · exact ((write_binding_asserts_and_append _ 0 42 42).2.1
      { descriptorType := 6, descriptorCount := 3, stageFlags := 17 } rfl (by decide)).1

/-- C9: `addBinding` with an already-registered index trips the
binding-already-in-use assertion regardless of prior state; and for every
call sequence with pairwise-distinct indices the whole sequence succeeds
and the layout `build` produces has exactly the registered bindings — each
registered index mapped to its registered type, stage flags and count,
every other index absent — independently of the order of registration. -/
theorem addBinding_build_binding_set :
    (∀ (m : BindingMap) (spec : BindingSpec) (b : LayoutBinding),
      m spec.binding = some b →
      Builder.addBinding m spec = .error .bindingAlreadyInUse) ∧
    (∀ l : List BindingSpec, (l.map BindingSpec.binding).Nodup →
      ∃ m, Builder.addBindings BindingMap.empty l = .ok m ∧
        ∀ i, (Builder.build m).bindings i = registeredBindings l i) ∧
    (∀ l l2 : List BindingSpec, l.Perm l2 → (l.map BindingSpec.binding).Nodup →
      ∀ i, registeredBindings l i = registeredBindings l2 i) := by
  refine ⟨?_, ?_, ?_⟩
  · intro m spec b h
    simp [Builder.addBinding, h]
  · intro l hnd
    obtain ⟨m2, hrun, hchar⟩ :=
      addBindings_spec l BindingMap.empty hnd (fun _ _ => rfl)
    refine ⟨m2, hrun, fun i => ?_⟩
    show m2 i = registeredBindings l i
    rw [hchar i]
    cases registeredBindings l i <;> rfl
  · intro l l2 hp hnd i
    exact registeredBindings_perm hp hnd i

/-- Witness for `addBinding_build_binding_set`: registering bindings 0 and 2
in either order yields the same binding set, exactly the registered one,
and re-adding index 0 trips the assertion. -/
theorem addBinding_build_binding_set_witness :
    Builder.addBinding
        (BindingMap.empty.insert 0
          { descriptorType := 6, descriptorCount := 1, stageFlags := 17 })
        { binding := 0, descriptorType := 1, stageFlags := 1, count := 1 } =
      .error .bindingAlreadyInUse ∧
    (∃ m, Builder.addBindings BindingMap.empty
        [{ binding := 0, descriptorType := 6, stageFlags := 17, count := 1 },
         { binding := 2, descriptorType := 1, stageFlags := 16, count := 1 }] = .ok m ∧
      ∀ i, (Builder.build m).bindings i =
        registeredBindings
          [{ binding := 0, descriptorType := 6, stageFlags := 17, count := 1 },
           { binding := 2, descriptorType := 1, stageFlags := 16, count := 1 }] i) ∧
    ∀ i, registeredBindings
        [{ binding := 0, descriptorType := 6, stageFlags := 17, count := 1 },
         { binding := 2, descriptorType := 1, stageFlags := 16, count := 1 }] i =
      registeredBindings
        [{ binding := 2, descriptorType := 1, stageFlags := 16, count := 1 },
         { binding := 0, descriptorType := 6, stageFlags := 17, count := 1 }] i := by
  refine ⟨addBinding_build_binding_set.1 _ _
      { descriptorType := 6, descriptorCount := 1, stageFlags := 17 } rfl,
    addBinding_build_binding_set.2.1 _ (by decide),
    addBinding_build_binding_set.2.2 _ _ (List.Perm.swap _ _ _) (by decide)⟩

end Lve
